import Mathlib

/-!
# Verification of the meow-service streaming VAD session engine

Shallow embedding of the voice-activity-detection (VAD) core of
`src/meow-service/app.py`: the one-shot detector (`/vad`,
`detect_voice_activity`), the per-session streaming state machine
(`/vad/session/process`, `process_vad_stream`) and the session registry
lifecycle (`/vad/session/start`, `/vad/session/end`).

Modelling choices:
* Speech probabilities and thresholds are Python floats used only in
  comparisons (`>=`, `<=`); they are embedded as rationals (`ℚ`).
* The external Silero classifier is an oracle `List ℚ → Option ℚ`
  (`none` models the classifier call raising, i.e. a transient
  inference failure).  The service never inspects the samples itself
  beyond decoding them, so nothing is lost by the abstraction.
* Audio arrives base64-encoded; we model the *decoded* byte string as a
  `List Nat`.  A base64 decoding failure, like every other exception in
  the endpoint `try` blocks, happens before any session mutation and is
  mapped to the same generic HTTP-500 handler, so it is subsumed by the
  `frombufferInt16` failure path.
* `np.frombuffer(b, dtype=np.int16)` raises when `len(b)` is odd; on an
  even length it reads little-endian signed 16-bit samples.
* The global dict `vad_sessions` is embedded as an association list
  with Python-dict operations (lookup, assign-or-append, pop).
* Each endpoint returns the new registry together with either a result
  or a `ServiceError` naming the HTTP error branch actually taken by
  the code (`503` model-not-loaded, `404` session-not-found, and the
  single generic `500` from the `except Exception` handlers).
-/

/-- One streaming VAD session, mirroring the dict created by
`start_vad_session` (app.py lines 387-393): keys `audio_buffer`,
`voice_window`, `last_voice_state`, `silence_frames`, `has_voice`. -/
structure VADSession where
  audio_buffer : List Int
  voice_window : List Bool
  last_voice_state : Bool
  silence_frames : Nat
  has_voice : Bool
deriving Repr, DecidableEq

/-- The fresh session stored by `start_vad_session`. -/
def initSession : VADSession :=
  { audio_buffer := []
    voice_window := []
    last_voice_state := false
    silence_frames := 0
    has_voice := false }

/-- The JSON body returned by a successful `process_vad_stream` call
(app.py lines 444-449).  Note the response key `has_voice` carries the
value of the local `voice_confirmed`, not the session's sticky
`has_voice` flag. -/
structure ProcessResult where
  has_voice : Bool
  probability : ℚ
  speech_ended : Bool
  session_active : Bool
deriving Repr, DecidableEq

/-- The JSON body returned by a successful `detect_voice_activity`
call (app.py line 377). -/
structure VADResponse where
  has_voice : Bool
  probability : ℚ
deriving Repr, DecidableEq

/-- The error branches the VAD endpoints can take, by HTTP status:
`modelNotLoaded` is the explicit 503, `sessionNotFound` the explicit
404, and `processingFailed` the single generic 500 raised by the
`except Exception` handler of each endpoint (app.py lines 379-381 and
451-453).  The code has no finer-grained error kinds than these. -/
inductive ServiceError where
  | modelNotLoaded
  | sessionNotFound
  | processingFailed
deriving Repr, DecidableEq

/-- Sliding-window update of `process_vad_stream` (app.py lines
421-424): `session["voice_window"].append(current_voice)`, then
`pop(0)` when the length exceeds 5. -/
def windowPush (w : List Bool) (b : Bool) : List Bool :=
  let w1 := w ++ [b]
  if w1.length > 5 then w1.tail else w1

/-- The per-frame session update of `process_vad_stream` (app.py lines
418-449), applied after the classifier has produced `speech_prob`.
Returns the mutated session together with the response body. -/
def processFrame (threshold threshold_low speech_prob : ℚ)
    (s : VADSession) : VADSession × ProcessResult :=
  let current_voice : Bool := decide (speech_prob ≥ threshold)
  let w : List Bool := windowPush s.voice_window current_voice
  let voice_confirmed : Bool := decide (3 ≤ w.count true)
  if voice_confirmed then
    ({ s with voice_window := w, has_voice := true, silence_frames := 0,
              last_voice_state := true },
     { has_voice := voice_confirmed, probability := speech_prob,
       speech_ended := false, session_active := true })
  else if speech_prob ≤ threshold_low then
    let sf := s.silence_frames + 1
    if sf ≥ 16 then
      ({ s with voice_window := w, silence_frames := sf, has_voice := false },
       { has_voice := voice_confirmed, probability := speech_prob,
         speech_ended := true, session_active := true })
    else
      ({ s with voice_window := w, silence_frames := sf },
       { has_voice := voice_confirmed, probability := speech_prob,
         speech_ended := false, session_active := true })
  else
    ({ s with voice_window := w, silence_frames := 0 },
     { has_voice := voice_confirmed, probability := speech_prob,
       speech_ended := false, session_active := true })

/-- Final session state after feeding a sequence of classifier
probabilities through `processFrame`. -/
def runFrames (threshold threshold_low : ℚ) (ps : List ℚ)
    (s : VADSession) : VADSession :=
  ps.foldl (fun st p => (processFrame threshold threshold_low p st).1) s

/-- The list of per-call response bodies produced by feeding a sequence
of classifier probabilities through `processFrame`. -/
def runResults (threshold threshold_low : ℚ) (ps : List ℚ)
    (s : VADSession) : List ProcessResult :=
  match ps with
  | [] => []
  | p :: rest =>
    let sr := processFrame threshold threshold_low p s
    sr.2 :: runResults threshold threshold_low rest sr.1

/-- Placeholder response used as the `List.getD` default when indexing
`runResults`; every claim indexes within bounds. -/
def noResult : ProcessResult :=
  { has_voice := false, probability := 0, speech_ended := false,
    session_active := true }

/-- Reading of one little-endian signed 16-bit sample from two bytes,
as `np.frombuffer(b, dtype=np.int16)` does. -/
def toInt16 (v : Nat) : Int :=
  if v % 65536 < 32768 then ((v % 65536 : Nat) : Int)
  else ((v % 65536 : Nat) : Int) - 65536

/-- Decode an even-length byte string into int16 samples. -/
def decodeInt16LE : List Nat → List Int
  | b0 :: b1 :: rest => toInt16 (b0 % 256 + 256 * (b1 % 256)) :: decodeInt16LE rest
  | _ => []

/-- `np.frombuffer(audio_bytes, dtype=np.int16)` (app.py lines 367 and
411): fails (raises `ValueError`) when the byte length is not a
multiple of the 2-byte element size, otherwise yields the samples. -/
def frombufferInt16 (bytes : List Nat) : Option (List Int) :=
  if bytes.length % 2 = 0 then some (decodeInt16LE bytes) else none

/-- Normalisation to float in [-1, 1]:
`audio_int16.astype(np.float32) / 32768.0`. -/
def normalizeSamples (samples : List Int) : List ℚ :=
  samples.map (fun x => (x : ℚ) / 32768)

/-- The `/vad` endpoint `detect_voice_activity` (app.py lines 354-381):
503 when the model is not loaded; decode the frame; call the
classifier; on success answer `has_voice = probability >= threshold`;
any exception in the `try` block becomes the generic 500. -/
def detect_voice_activity (modelLoaded : Bool)
    (classify : List ℚ → Option ℚ) (audio : List Nat) (threshold : ℚ) :
    Except ServiceError VADResponse :=
  if modelLoaded = false then .error .modelNotLoaded
  else
    match frombufferInt16 audio with
    | none => .error .processingFailed
    | some samples =>
      match classify (normalizeSamples samples) with
      | none => .error .processingFailed
      | some p => .ok { has_voice := decide (p ≥ threshold), probability := p }

/-- The global `vad_sessions` dict (app.py line 63), as an association
list from session id to session. -/
abbrev Registry := List (String × VADSession)

/-- Python dict lookup `vad_sessions[session_id]` /
`session_id in vad_sessions`. -/
def dictGet : Registry → String → Option VADSession
  | [], _ => none
  | (k, v) :: rest, id => if k = id then some v else dictGet rest id

/-- Python dict assignment `vad_sessions[session_id] = ...`: replace
the entry when the key is present, append it otherwise. -/
def dictSet : Registry → String → VADSession → Registry
  | [], id, v => [(id, v)]
  | (k, w) :: rest, id, v =>
    if k = id then (k, v) :: rest else (k, w) :: dictSet rest id v

/-- Python dict removal `vad_sessions.pop(session_id)`. -/
def dictPop : Registry → String → Registry
  | [], _ => []
  | (k, w) :: rest, id => if k = id then rest else (k, w) :: dictPop rest id

/-- The `/vad/session/start` endpoint `start_vad_session` (app.py lines
384-394): unconditionally stores a fresh session under the id (its
response is the constant ack `{"status": "started", ...}`, carrying no
session data, so only the registry update is modelled). -/
def start_vad_session (r : Registry) (session_id : String) : Registry :=
  dictSet r session_id initSession

/-- The `/vad/session/process` endpoint `process_vad_stream` (app.py
lines 397-453): 503 when the model is not loaded; 404 when the id is
absent; then inside the `try` block decode, classify and apply
`processFrame`.  Every exception path happens before any session
mutation, so an error leaves the registry untouched. -/
def process_vad_stream (modelLoaded : Bool)
    (classify : List ℚ → Option ℚ) (r : Registry) (session_id : String)
    (audio : List Nat) (threshold threshold_low : ℚ) :
    Registry × Except ServiceError ProcessResult :=
  if modelLoaded = false then (r, .error .modelNotLoaded)
  else
    match dictGet r session_id with
    | none => (r, .error .sessionNotFound)
    | some s =>
      match frombufferInt16 audio with
      | none => (r, .error .processingFailed)
      | some samples =>
        match classify (normalizeSamples samples) with
        | none => (r, .error .processingFailed)
        | some p =>
          let sr := processFrame threshold threshold_low p s
          (dictSet r session_id sr.1, .ok sr.2)

/-- The JSON body returned by `end_vad_session` (app.py lines 456-467).
`had_voice = none` models the not-found response, whose dict literal
`{"status": "not_found", "session_id": ...}` contains no `had_voice`
key at all. -/
structure EndResponse where
  status : String
  session_id : String
  had_voice : Option Bool
deriving Repr, DecidableEq

/-- The `/vad/session/end` endpoint `end_vad_session` (app.py lines
456-467): pop the session and report its terminal `has_voice` when the
id is present; otherwise answer the not-found body without raising. -/
def end_vad_session (r : Registry) (session_id : String) :
    Registry × EndResponse :=
  match dictGet r session_id with
  | some s =>
    (dictPop r session_id,
     { status := "ended", session_id := session_id,
       had_voice := some s.has_voice })
  | none =>
    (r, { status := "not_found", session_id := session_id,
          had_voice := none })

/-! ## Helper lemmas -/

lemma windowPush_length_le (w : List Bool) (b : Bool)
    (h : w.length ≤ 5) : (windowPush w b).length ≤ 5 := by
  simp only [windowPush]
  split
  · rename_i h6
    simp only [List.length_tail, List.length_append, List.length_cons,
      List.length_nil] at h6 ⊢
    omega
  · rename_i h6
    simp only [List.length_append, List.length_cons, List.length_nil] at h6 ⊢
    omega

lemma windowPush_length_le_succ (w : List Bool) (b : Bool) :
    (windowPush w b).length ≤ w.length + 1 := by
  simp only [windowPush]
  split
  · simp [List.length_tail]
  · simp

lemma windowPush_eq (w : List Bool) (b : Bool) (h : w.length ≤ 5) :
    windowPush w b = (if w.length = 5 then w.tail else w) ++ [b] := by
  simp only [windowPush]
  by_cases h5 : w.length = 5
  · rw [if_pos (by simp [h5]), if_pos h5]
    cases w with
    | nil => simp at h5
    | cons a t => simp
  · rw [if_neg (by simp; omega), if_neg h5]

lemma count_tail_le (l : List Bool) (b : Bool) :
    l.tail.count b ≤ l.count b := by
  cases l with
  | nil => simp
  | cons a t =>
    simp only [List.tail_cons, List.count_cons]
    omega

lemma windowPush_count_false_le (w : List Bool) :
    (windowPush w false).count true ≤ w.count true := by
  simp only [windowPush]
  split
  · exact le_trans (count_tail_le _ _) (by simp)
  · simp

lemma processFrame_fst_voice_window (t tl p : ℚ) (s : VADSession) :
    ((processFrame t tl p s).1).voice_window
      = windowPush s.voice_window (decide (p ≥ t)) := by
  simp only [processFrame]
  split
  · rfl
  · split
    · split <;> rfl
    · rfl

lemma processFrame_snd_has_voice (t tl p : ℚ) (s : VADSession) :
    ((processFrame t tl p s).2).has_voice
      = decide (3 ≤ (windowPush s.voice_window (decide (p ≥ t))).count true) := by
  simp only [processFrame]
  split
  · rename_i h
    simp at h
    simp [h]
  · split
    · split <;> rfl
    · rfl

lemma processFrame_low (t tl p : ℚ) (s : VADSession)
    (hp : p ≤ tl) (htl : tl < t)
    (hcnt : s.voice_window.count true ≤ 2) :
    processFrame t tl p s =
      ({ s with
          voice_window := windowPush s.voice_window false,
          silence_frames := s.silence_frames + 1,
          has_voice := if 16 ≤ s.silence_frames + 1 then false else s.has_voice },
       { has_voice := false, probability := p,
         speech_ended := decide (16 ≤ s.silence_frames + 1),
         session_active := true }) := by
  have hcv : decide (p ≥ t) = false := by
    simp only [ge_iff_le, decide_eq_false_iff_not, not_le]
    exact lt_of_le_of_lt hp htl
  have hvc : decide (3 ≤ (windowPush s.voice_window false).count true) = false := by
    have := windowPush_count_false_le s.voice_window
    simp only [decide_eq_false_iff_not, not_le]
    omega
  simp only [processFrame, hcv, hvc, Bool.false_eq_true, if_false, if_pos hp,
    ge_iff_le]
  split
  · rename_i h16
    simp [if_pos h16]
    omega
  · rename_i h16
    simp [if_neg h16]
    omega

lemma processFrame_ambiguous (t tl p : ℚ) (s : VADSession)
    (hvc : decide (3 ≤ (windowPush s.voice_window (decide (p ≥ t))).count true)
             = false)
    (hp : ¬ p ≤ tl) :
    processFrame t tl p s =
      ({ s with voice_window := windowPush s.voice_window (decide (p ≥ t)),
                silence_frames := 0 },
       { has_voice := false, probability := p, speech_ended := false,
         session_active := true }) := by
  simp only [processFrame, hvc, Bool.false_eq_true, if_false, if_neg hp]

lemma dictGet_dictSet_self (r : Registry) (id : String) (v : VADSession) :
    dictGet (dictSet r id v) id = some v := by
  induction r with
  | nil => simp [dictSet, dictGet]
  | cons e rest ih =>
    obtain ⟨k, w⟩ := e
    by_cases h : k = id
    · simp [dictSet, dictGet, h]
    · simp [dictSet, dictGet, h, ih]

lemma dictGet_eq_none_of_not_mem (r : Registry) (id : String)
    (h : id ∉ r.map Prod.fst) : dictGet r id = none := by
  induction r with
  | nil => simp [dictGet]
  | cons e rest ih =>
    obtain ⟨k, w⟩ := e
    simp only [List.map_cons, List.mem_cons] at h
    push_neg at h
    have hne : ¬ k = id := fun hk => h.1 hk.symm
    rw [dictGet, if_neg hne]
    exact ih h.2

lemma dictGet_dictPop_self (r : Registry) (id : String)
    (hnd : (r.map Prod.fst).Nodup) :
    dictGet (dictPop r id) id = none := by
  induction r with
  | nil => simp [dictPop, dictGet]
  | cons e rest ih =>
    obtain ⟨k, w⟩ := e
    simp only [List.map_cons, List.nodup_cons] at hnd
    by_cases h : k = id
    · simp only [dictPop, if_pos h]
      exact dictGet_eq_none_of_not_mem rest id (h ▸ hnd.1)
    · simp only [dictPop, if_neg h]
      rw [dictGet, if_neg h]
      exact ih hnd.2

lemma runFrames_cons (t tl p : ℚ) (ps : List ℚ) (s : VADSession) :
    runFrames t tl (p :: ps) s
      = runFrames t tl ps (processFrame t tl p s).1 := rfl

lemma runFrames_window_length_le (t tl : ℚ) (ps : List ℚ) (s : VADSession)
    (h : s.voice_window.length ≤ 5) :
    (runFrames t tl ps s).voice_window.length ≤ 5 := by
  induction ps generalizing s with
  | nil => exact h
  | cons p rest ih =>
    rw [runFrames_cons]
    exact ih _ (by
      rw [processFrame_fst_voice_window]
      exact windowPush_length_le _ _ h)

lemma runFrames_window_length_le_add (t tl : ℚ) (ps : List ℚ)
    (s : VADSession) :
    (runFrames t tl ps s).voice_window.length
      ≤ s.voice_window.length + ps.length := by
  induction ps generalizing s with
  | nil => simp [runFrames]
  | cons p rest ih =>
    rw [runFrames_cons]
    refine le_trans (ih _) ?_
    rw [processFrame_fst_voice_window]
    have := windowPush_length_le_succ s.voice_window (decide (p ≥ t))
    simp only [List.length_cons]
    omega

lemma runResults_low_getD (t tl : ℚ) (ps : List ℚ) (s : VADSession) (k : Nat)
    (htl : tl < t) (hlow : ∀ p ∈ ps, p ≤ tl)
    (hcnt : s.voice_window.count true ≤ 2)
    (hk : k < ps.length) :
    ((runResults t tl ps s).getD k noResult).speech_ended
      = decide (16 ≤ s.silence_frames + k + 1) := by
  induction ps generalizing s k with
  | nil => simp at hk
  | cons p rest ih =>
    have hp : p ≤ tl := hlow p (List.mem_cons_self p rest)
    simp only [runResults, processFrame_low t tl p s hp htl hcnt]
    cases k with
    | zero =>
      simp
    | succ k' =>
      simp only [List.getD_cons_succ]
      have hk' : k' < rest.length := by
        simp only [List.length_cons] at hk
        omega
      rw [ih _ k' (fun q hq => hlow q (List.mem_cons_of_mem p hq))
        (le_trans (windowPush_count_false_le _) hcnt) hk']
      simp only [decide_eq_decide]
      omega

/-! ## Claims -/

/-- C2: for every session and every sequence of process calls, the
length of `voice_window` is at most 5 after each call.  Stated over all
traces from the freshly created session: since the trace is universally
quantified, the bound holds after every prefix, i.e. after every call. -/
theorem C2_window_length_bounded (t tl : ℚ) (ps : List ℚ) :
    (runFrames t tl ps initSession).voice_window.length ≤ 5 :=
  runFrames_window_length_le t tl ps initSession (by simp [initSession])

/-- C3: on every successful process call, `probability >= threshold` is
appended to `voice_window` with FIFO eviction of the oldest entry at
length 5, and the returned `voice_confirmed` (the response field
`has_voice`) equals `(count of true in the updated window) >= 3`.  The
hypothesis `length <= 5` is the C2 invariant, which holds in every
reachable session state. -/
theorem C3_window_append_and_confirm (t tl p : ℚ) (s : VADSession)
    (h : s.voice_window.length ≤ 5) :
    ((processFrame t tl p s).1).voice_window
      = (if s.voice_window.length = 5 then s.voice_window.tail
         else s.voice_window) ++ [decide (p ≥ t)] ∧
    ((processFrame t tl p s).2).has_voice
      = decide (3 ≤ (((processFrame t tl p s).1).voice_window).count true) := by
  constructor
  · rw [processFrame_fst_voice_window, windowPush_eq _ _ h]
  · rw [processFrame_snd_has_voice, processFrame_fst_voice_window]

/-- Witness for C3 at a concrete input: fresh session, probability 9/10
against threshold 1/2 appends `true` and leaves the window unconfirmed. -/
theorem C3_witness :
    initSession.voice_window.length ≤ 5 ∧
    (((processFrame (mkRat 1 2) (mkRat 3 20) (mkRat 9 10) initSession).1).voice_window
      = (if initSession.voice_window.length = 5 then initSession.voice_window.tail
         else initSession.voice_window) ++ [decide ((mkRat 9 10 : ℚ) ≥ mkRat 1 2)] ∧
     ((processFrame (mkRat 1 2) (mkRat 3 20) (mkRat 9 10) initSession).2).has_voice
      = decide (3 ≤ (((processFrame (mkRat 1 2) (mkRat 3 20) (mkRat 9 10)
          initSession).1).voice_window).count true)) :=
  ⟨by decide,
   C3_window_append_and_confirm (mkRat 1 2) (mkRat 3 20) (mkRat 9 10) initSession
     (by decide)⟩

/-- C4: `voice_confirmed` is never true before at least 3 frames have
been processed for a session: on the first and second calls after
creation (at most one earlier frame, `ps.length <= 1`) the response's
confirmation field is false, whatever the probabilities. -/
theorem C4_no_confirmation_before_three_frames (t tl p : ℚ) (ps : List ℚ)
    (h : ps.length ≤ 1) :
    ((processFrame t tl p (runFrames t tl ps initSession)).2).has_voice
      = false := by
  have hlen : (runFrames t tl ps initSession).voice_window.length ≤ 1 := by
    have h2 := runFrames_window_length_le_add t tl ps initSession
    have h0 : initSession.voice_window.length = 0 := rfl
    omega
  rw [processFrame_snd_has_voice]
  have h2 : (windowPush (runFrames t tl ps initSession).voice_window
      (decide (p ≥ t))).length ≤ 2 :=
    le_trans (windowPush_length_le_succ _ _) (by omega)
  have h3 := List.count_le_length true
    (windowPush (runFrames t tl ps initSession).voice_window (decide (p ≥ t)))
  simp only [decide_eq_false_iff_not, not_le]
  omega

/-- Witness for C4 at a concrete input: the second call of a session
fed two maximally voiced frames is still unconfirmed. -/
theorem C4_witness :
    (([(1 : ℚ)]).length ≤ 1) ∧
    ((processFrame (mkRat 1 2) (mkRat 3 20) 1
        (runFrames (mkRat 1 2) (mkRat 3 20) [(1 : ℚ)] initSession)).2).has_voice
      = false :=
  ⟨by decide,
   C4_no_confirmation_before_three_frames (mkRat 1 2) (mkRat 3 20) 1 [(1 : ℚ)]
     (by decide)⟩

/-- C7: `session_start` stores a fresh session (empty window, zero
silence run, `has_voice = false`) under the id, overwriting whatever
session was there before (last-start-wins, no error): after `start`,
looking the id up yields exactly `initSession`, for every prior
registry, including one already holding that id with dirty state. -/
theorem C7_start_overwrites_fresh (r : Registry) (id : String) :
    dictGet (start_vad_session r id) id = some initSession ∧
    initSession.voice_window = [] ∧
    initSession.silence_frames = 0 ∧
    initSession.has_voice = false :=
  ⟨dictGet_dictSet_self r id initSession, rfl, rfl, rfl⟩

/-- C9: on every successful one-shot call, `detect_voice_activity`
returns `has_voice = (probability >= threshold)`.  There is no session
state anywhere in its signature: the answer is a pure function of the
classifier's probability for the current frame. -/
theorem C9_detect_threshold (cf : List ℚ → Option ℚ) (audio : List Nat)
    (t : ℚ) (res : VADResponse)
    (h : detect_voice_activity true cf audio t = .ok res) :
    res.has_voice = decide (res.probability ≥ t) := by
  rcases hfb : frombufferInt16 audio with _ | samples
  · simp [detect_voice_activity, hfb] at h
  · rcases hcf : cf (normalizeSamples samples) with _ | p
    · simp [detect_voice_activity, hfb, hcf] at h
    · simp only [detect_voice_activity, hfb, hcf, Bool.not_eq_true,
        if_neg (by simp : ¬ (true = false)), Except.ok.injEq] at h
      subst h
      rfl

/-- Witness for C9 at a concrete input: probability 9/10 against
threshold 1/2 yields `has_voice = true`. -/
theorem C9_witness :
    detect_voice_activity true (fun _ => some (mkRat 9 10)) [0, 0] (mkRat 1 2)
      = .ok { has_voice := true, probability := mkRat 9 10 } ∧
    ({ has_voice := true, probability := mkRat 9 10 } : VADResponse).has_voice
      = decide (({ has_voice := true, probability := mkRat 9 10 } :
          VADResponse).probability ≥ mkRat 1 2) :=
  ⟨rfl,
   C9_detect_threshold (fun _ => some (mkRat 9 10)) [0, 0] (mkRat 1 2)
     { has_voice := true, probability := mkRat 9 10 } rfl⟩

/-- C10: on every process call that is not voice-confirmed and whose
probability is strictly above `threshold_low`, `silence_frames` is
reset to 0 and `has_voice` is unchanged — the `else` branch at app.py
lines 441-442 is reached for every such frame, including frames with
`probability >= threshold` (the reset is not limited to the zone
strictly between the two thresholds). -/
theorem C10_ambiguous_resets_silence (t tl p : ℚ) (s : VADSession)
    (hconf : ((processFrame t tl p s).2).has_voice = false)
    (hp : tl < p) :
    ((processFrame t tl p s).1).silence_frames = 0 ∧
    ((processFrame t tl p s).1).has_voice = s.has_voice := by
  have hvc : decide (3 ≤ (windowPush s.voice_window
      (decide (p ≥ t))).count true) = false := by
    rw [← processFrame_snd_has_voice]
    exact hconf
  rw [processFrame_ambiguous t tl p s hvc (not_le.mpr hp)]
  exact ⟨rfl, rfl⟩

/-- Witness for C10 at a concrete input with probability 9/10 at or
above the high threshold 1/2 (not in the ambiguous zone): the frame is
unconfirmed on a fresh window, the silence run resets and `has_voice`
is untouched. -/
theorem C10_witness :
    ((processFrame (mkRat 1 2) (mkRat 3 20) (mkRat 9 10)
        initSession).2).has_voice = false ∧
    (mkRat 3 20 : ℚ) < mkRat 9 10 ∧
    (mkRat 9 10 : ℚ) ≥ mkRat 1 2 ∧
    ((processFrame (mkRat 1 2) (mkRat 3 20) (mkRat 9 10)
        initSession).1).silence_frames = 0 ∧
    ((processFrame (mkRat 1 2) (mkRat 3 20) (mkRat 9 10)
        initSession).1).has_voice = initSession.has_voice := by
  have h := C10_ambiguous_resets_silence (mkRat 1 2) (mkRat 3 20) (mkRat 9 10)
    initSession (by decide) (by decide)
  exact ⟨by decide, by decide, by decide, h.1, h.2⟩

/-- C5: whenever a process call fails — model not loaded, session
missing, undecodable frame bytes, or the classifier raising — the
registry (and hence every session's `voice_window`, `silence_frames`
and `has_voice`) is exactly what it was before the call: in the source
every mutation of the session dict happens after `speech_prob` has been
computed, and nothing on the mutation path can raise, so updates are
all-or-nothing. -/
theorem C5_error_leaves_registry_unchanged (ml : Bool)
    (cf : List ℚ → Option ℚ) (r : Registry) (id : String)
    (audio : List Nat) (t tl : ℚ) (e : ServiceError)
    (h : (process_vad_stream ml cf r id audio t tl).2 = .error e) :
    (process_vad_stream ml cf r id audio t tl).1 = r := by
  by_cases hml : ml = false
  · simp [process_vad_stream, hml]
  · rcases hg : dictGet r id with _ | s
    · simp [process_vad_stream, hml, hg]
    · rcases hfb : frombufferInt16 audio with _ | samples
      · simp [process_vad_stream, hml, hg, hfb]
      · rcases hcf : cf (normalizeSamples samples) with _ | p
        · simp [process_vad_stream, hml, hg, hfb, hcf]
        · exfalso
          simp [process_vad_stream, hml, hg, hfb, hcf] at h

/-- Witness for C5 at a concrete input: a one-byte (odd length) frame
for an existing session fails with the generic processing error and
leaves the registry unchanged. -/
theorem C5_witness :
    (process_vad_stream true (fun _ => some 1) [("a", initSession)] "a" [0]
        (mkRat 1 2) (mkRat 3 20)).2 = .error .processingFailed ∧
    (process_vad_stream true (fun _ => some 1) [("a", initSession)] "a" [0]
        (mkRat 1 2) (mkRat 3 20)).1 = [("a", initSession)] :=
  ⟨rfl,
   C5_error_leaves_registry_unchanged true (fun _ => some 1)
     [("a", initSession)] "a" [0] (mkRat 1 2) (mkRat 3 20)
     .processingFailed rfl⟩

/-- C6 counterexample: the claim says `session_end` on an absent id
returns `had_voice = false`; but the not-found response literal of
`end_vad_session` (app.py line 467) is
`{"status": "not_found", "session_id": ...}` — it carries no
`had_voice` value at all (`none` in the embedding), so the response is
not `had_voice = false` (`some false`). -/
theorem C6_counterexample :
    ((end_vad_session [] "s1").2).status = "not_found" ∧
    ((end_vad_session [] "s1").2).had_voice = none ∧
    ((end_vad_session [] "s1").2).had_voice ≠ some false :=
  ⟨rfl, rfl, by simp [end_vad_session, dictGet]⟩

/-- C6 as amended: `session_end` on an absent id answers the not-found
status without raising and without touching the registry, and its
response omits `had_voice` entirely (rather than carrying
`had_voice = false`); on a present id it removes the session and
returns the session's terminal `has_voice` (removal stated under
key-uniqueness, which every Python dict satisfies). -/
theorem C6_end_session_behavior (r : Registry) (id : String) :
    (dictGet r id = none →
      (end_vad_session r id).2.status = "not_found" ∧
      (end_vad_session r id).2.had_voice = none ∧
      (end_vad_session r id).1 = r) ∧
    (∀ s, dictGet r id = some s →
      (end_vad_session r id).2.status = "ended" ∧
      (end_vad_session r id).2.had_voice = some s.has_voice ∧
      ((r.map Prod.fst).Nodup → dictGet (end_vad_session r id).1 id = none)) := by
  constructor
  · intro h
    simp [end_vad_session, h]
  · intro s h
    have h1 : end_vad_session r id =
        (dictPop r id,
         { status := "ended", session_id := id,
           had_voice := some s.has_voice }) := by
      simp [end_vad_session, h]
    rw [h1]
    exact ⟨rfl, rfl, fun hnd => dictGet_dictPop_self r id hnd⟩

/-- Witness for C6 at concrete inputs: ending the absent id `"b"` on a
one-session registry, and ending the present id `"a"`. -/
theorem C6_witness :
    ((end_vad_session [("a", initSession)] "b").2.status = "not_found" ∧
     (end_vad_session [("a", initSession)] "b").2.had_voice = none ∧
     (end_vad_session [("a", initSession)] "b").1 = [("a", initSession)]) ∧
    ((end_vad_session [("a", initSession)] "a").2.status = "ended" ∧
     (end_vad_session [("a", initSession)] "a").2.had_voice
       = some initSession.has_voice ∧
     dictGet (end_vad_session [("a", initSession)] "a").1 "a" = none) := by
  constructor
  · exact (C6_end_session_behavior [("a", initSession)] "b").1 (by decide)
  · have h := (C6_end_session_behavior [("a", initSession)] "a").2
      initSession (by decide)
    exact ⟨h.1, h.2.1, h.2.2 (by decide)⟩

/-- C8 counterexample: the claim says an input of odd byte length fails
with a distinct `InvalidAudio` error kind distinguishable from
`ClassifierFailure`; but both failures go through the same
`except Exception` handler and surface as the one generic HTTP-500
error kind — here, a one-byte frame and a classifier failure on a valid
frame produce the identical error value. -/
theorem C8_counterexample :
    detect_voice_activity true (fun _ => some 1) [0] (mkRat 1 2)
      = .error .processingFailed ∧
    detect_voice_activity true (fun _ => none) [0, 0] (mkRat 1 2)
      = .error .processingFailed :=
  ⟨rfl, rfl⟩

/-- C8 as amended: for every input whose byte length is not a multiple
of 2, `detect_once` and `session_process` fail with the generic
processing-failure error (HTTP 500).  That kind is distinguishable from
`SessionNotFound` (404) and `ModelUnavailable` (503), but not from a
classifier failure, which is reported with the same kind. -/
theorem C8_error_kinds (cf : List ℚ → Option ℚ) (audio good : List Nat)
    (t tl : ℚ) (r : Registry) (id : String) (s : VADSession)
    (hodd : audio.length % 2 = 1) (hs : dictGet r id = some s)
    (hgood : good.length % 2 = 0) (hfail : ∀ xs, cf xs = none) :
    detect_voice_activity true cf audio t = .error .processingFailed ∧
    (process_vad_stream true cf r id audio t tl).2
      = .error .processingFailed ∧
    detect_voice_activity true cf good t = .error .processingFailed ∧
    ServiceError.processingFailed ≠ ServiceError.sessionNotFound ∧
    ServiceError.processingFailed ≠ ServiceError.modelNotLoaded := by
  have hfb : frombufferInt16 audio = none := by
    unfold frombufferInt16
    rw [if_neg (by omega)]
  refine ⟨?_, ?_, ?_, by decide, by decide⟩
  · simp [detect_voice_activity, hfb]
  · simp [process_vad_stream, hs, hfb]
  · unfold detect_voice_activity frombufferInt16
    rw [if_neg (by simp), if_pos hgood]
    simp [hfail]

/-- Witness for C8 at concrete inputs: a one-byte frame (odd length),
an always-failing classifier, an empty (even-length) frame and a
one-session registry. -/
theorem C8_witness :
    detect_voice_activity true (fun _ => none) [0] (mkRat 1 2)
      = .error .processingFailed ∧
    (process_vad_stream true (fun _ => none) [("a", initSession)] "a" [0]
        (mkRat 1 2) (mkRat 3 20)).2 = .error .processingFailed ∧
    detect_voice_activity true (fun _ => none) [] (mkRat 1 2)
      = .error .processingFailed ∧
    ServiceError.processingFailed ≠ ServiceError.sessionNotFound ∧
    ServiceError.processingFailed ≠ ServiceError.modelNotLoaded :=
  C8_error_kinds (fun _ => none) [0] [] (mkRat 1 2) (mkRat 3 20)
    [("a", initSession)] "a" initSession (by decide) (by decide) (by decide)
    (fun xs => rfl)

/-- Probabilities that drive a fresh session into a voice-confirmed
state and then just out of its confirmed window: three clearly voiced
frames (9/10), then three ambiguous frames (3/10).  The resulting state
has `has_voice = true`, `silence_frames = 0` and window
`[true, true, false, false, false]` (2 true entries). -/
def leadIn : List ℚ :=
  [mkRat 9 10, mkRat 9 10, mkRat 9 10, mkRat 3 10, mkRat 3 10, mkRat 3 10]

/-- The reachable session state from which the C1 silence run is fed:
voice was confirmed, then became unconfirmed, with the silence counter
still at zero. -/
def preSilenceState : VADSession :=
  runFrames (mkRat 1 2) (mkRat 3 20) leadIn initSession

set_option maxRecDepth 10000 in
/-- C1 counterexample: from the reachable state `preSilenceState`
(which has `has_voice = true` and `silence_frames = 0`), feeding 17
consecutive frames with probability 1/20 (at or below
`threshold_low = 3/20`) yields `speech_ended = true` on the 16th call
of the run — and `speech_ended = true` again on the 17th call, where
the claim requires `false`.  The code recomputes
`silence_frames >= 16` on every low frame without any already-fired
flag, so `speech_ended` is level-triggered, not fire-once. -/
theorem C1_counterexample :
    preSilenceState.has_voice = true ∧
    preSilenceState.silence_frames = 0 ∧
    ((runResults (mkRat 1 2) (mkRat 3 20)
        (List.replicate 17 (mkRat 1 20)) preSilenceState).getD 15
        noResult).speech_ended = true ∧
    ((runResults (mkRat 1 2) (mkRat 3 20)
        (List.replicate 17 (mkRat 1 20)) preSilenceState).getD 16
        noResult).speech_ended = true := by
  decide

/-- C1 as amended: starting from any session state whose silence
counter is zero and whose window holds at most 2 true entries (so the
run stays unconfirmed; this is the state right after voice activity
stops being confirmed), a run of consecutive frames at or below
`threshold_low` yields `speech_ended = false` on calls 1-15 and
`speech_ended = true` on call 16 AND on every later call of the run
(level-triggered re-firing), until a voice-confirmed frame resets the
cycle: the k-th call of the run reports `speech_ended` exactly when
`16 ≤ k`. -/
theorem C1_level_triggered (t tl : ℚ) (s : VADSession) (ps : List ℚ)
    (k : Nat) (htl : tl < t) (hlow : ∀ p ∈ ps, p ≤ tl)
    (hcnt : s.voice_window.count true ≤ 2) (hsil : s.silence_frames = 0)
    (hk : k < ps.length) :
    ((runResults t tl ps s).getD k noResult).speech_ended
      = decide (16 ≤ k + 1) := by
  rw [runResults_low_getD t tl ps s k htl hlow hcnt hk, hsil]
  simp only [decide_eq_decide]
  omega

set_option maxRecDepth 10000 in
/-- Witness for C1 as amended, at the concrete reachable state
`preSilenceState` with a 16-frame silence run: the 16th call reports
`speech_ended`. -/
theorem C1_witness :
    ((mkRat 3 20 : ℚ) < mkRat 1 2) ∧
    preSilenceState.voice_window.count true ≤ 2 ∧
    preSilenceState.silence_frames = 0 ∧
    ((runResults (mkRat 1 2) (mkRat 3 20)
        (List.replicate 16 (mkRat 1 20)) preSilenceState).getD 15
        noResult).speech_ended = decide (16 ≤ 15 + 1) := by
  refine ⟨by decide, by decide, by decide, ?_⟩
  exact C1_level_triggered (mkRat 1 2) (mkRat 3 20) preSilenceState
    (List.replicate 16 (mkRat 1 20)) 15 (by decide)
    (fun p hp => by rw [List.eq_of_mem_replicate hp]; decide)
    (by decide) (by decide) (by decide)
